import Mathlib

/-!
Shallow embedding of the trajectory engine of `wagecode.py`
(salary-vs-inflation compounding dashboard, 2020-2025).

Python floats are modelled as rationals; dictionary lookups, which raise
`KeyError` on a miss, are modelled as `Option`-returning functions; list
indexing inside the engine loop is modelled with `List.get?`.
-/

namespace WageChange

/-- `years = [2020, 2021, 2022, 2023, 2024, 2025]` (line 60 of the source). -/
def years : List Int := [2020, 2021, 2022, 2023, 2024, 2025]

/-- The `inflation_data` dict of dicts (lines 66-70): indexed first by the
index name (CPIH / CPI / RPI), then by year.  A missing key is `none`. -/
def inflation_data (index : String) (year : Int) : Option ℚ :=
  if index = "CPIH" then
    if year = 2021 then some 1.0
    else if year = 2022 then some 6.2
    else if year = 2023 then some 8.9
    else if year = 2024 then some 3.8
    else if year = 2025 then some 3.4
    else none
  else if index = "CPI" then
    if year = 2021 then some 0.7
    else if year = 2022 then some 7.0
    else if year = 2023 then some 10.1
    else if year = 2024 then some 3.2
    else if year = 2025 then some 2.6
    else none
  else if index = "RPI" then
    if year = 2021 then some 1.5
    else if year = 2022 then some 9.0
    else if year = 2023 then some 13.5
    else if year = 2024 then some 4.3
    else if year = 2025 then some 3.2
    else none
  else none

/-- The `pay_rates` dict (lines 74-80): per year, the list
`[Outstanding, Very Strong, Successful]` of base percentage rates. -/
def pay_rates (year : Int) : Option (List ℚ) :=
  if year = 2021 then some [3.25, 2.75, 2.30]
  else if year = 2022 then some [3.25, 2.75, 2.30]
  else if year = 2023 then some [3.70, 2.70, 2.30]
  else if year = 2024 then some [3.70, 2.70, 2.30]
  else if year = 2025 then some [3.70, 2.70, 2.30]
  else none

/-- Whether `mode` names a salary tier (line 119). -/
def isSalaryMode (mode : String) : Bool :=
  mode = "successful" || mode = "verystrong" || mode = "outstanding"

/-- Tier index into a `pay_rates` entry (lines 121-123):
0 = Outstanding, 1 = Very Strong, 2 = Successful. -/
def tierIdx (mode : String) : Nat :=
  if mode = "outstanding" then 0
  else if mode = "verystrong" then 1
  else 2

/-- The sequential `adj` assignments of lines 128-149: each year-gated block
overwrites `adj` when it fires, and an `elif` chain without a final `else`
leaves the previous value in place. -/
def adjustment (a22 a23 a24 : Bool) (year : Int) (current_val : ℚ) : ℚ :=
  let adj : ℚ := 0.0
  let adj : ℚ :=
    if year = 2022 ∧ a22 = true then
      if current_val ≤ 30000 then 2.0
      else if current_val ≤ 50000 then 1.0
      else adj
    else adj
  let adj : ℚ :=
    if year = 2023 ∧ a23 = true then 2.0 else adj
  let adj : ℚ :=
    if year = 2024 ∧ a24 = true then
      if current_val < 37000 then 1.0
      else if current_val > 50000 then -1.0
      else adj
    else adj
  adj

/-- The per-iteration computation of `pct_change` (lines 116-156):
salary modes look up the tier base rate and add the adjustment; index modes
look up the published rate; any other mode leaves `pct_change = 0.0`.
`none` models a `KeyError` / `IndexError` on a table lookup. -/
def pctChange (mode : String) (a22 a23 a24 : Bool) (year : Int)
    (current_val : ℚ) : Option ℚ :=
  if isSalaryMode mode then
    match pay_rates year with
    | none => none
    | some rates =>
      match rates.get? (tierIdx mode) with
      | none => none
      | some base => some (base + adjustment a22 a23 a24 year current_val)
  else if mode = "cpih" then inflation_data "CPIH" year
  else if mode = "cpi" then inflation_data "CPI" year
  else if mode = "rpi" then inflation_data "RPI" year
  else some 0.0

/-- Line 158: `current_val = current_val * (1 + pct_change / 100)`. -/
def stepVal (current_val pct_change : ℚ) : ℚ :=
  current_val * (1 + pct_change / 100)

/-- The loop of lines 114-160, over the remaining years, threading
`current_val` and accumulating the appended values and rates. -/
def trajLoop (mode : String) (a22 a23 a24 : Bool) :
    List Int → ℚ → Option (List ℚ × List ℚ)
  | [], _ => some ([], [])
  | year :: rest, current_val =>
    match pctChange mode a22 a23 a24 year current_val with
    | none => none
    | some pct =>
      match trajLoop mode a22 a23 a24 rest (stepVal current_val pct) with
      | none => none
      | some (vs, ms) => some (stepVal current_val pct :: vs, pct :: ms)

/-- `calculate_trajectory` (lines 108-162): starts from
`trajectory = [start_salary]`, `meta_changes = [0.0]`, and iterates over
`years[1:]`. -/
def calculate_trajectory (mode : String) (start_salary : ℚ)
    (a22 a23 a24 : Bool) : Option (List ℚ × List ℚ) :=
  match trajLoop mode a22 a23 a24 (years.drop 1) start_salary with
  | none => none
  | some (vs, ms) => some (start_salary :: vs, 0.0 :: ms)

/-- `calculate_real_term_change` (lines 232-240): for each period index,
deflate the nominal value by the index ratio and express the deviation from
`start_salary` as a percentage. -/
def calculate_real_term_change (start_salary : ℚ)
    (nominal_trajectory inflation_trajectory : List ℚ) : List ℚ :=
  (List.range years.length).map fun i =>
    let real_value :=
      nominal_trajectory.getD i 0 / (inflation_trajectory.getD i 0 / start_salary)
    ((real_value - start_salary) / start_salary) * 100

/-- The tier base rate looked up by the engine for a year
(`pay_rates[year][idx]`, line 125), read off the tables. -/
def baseRate (mode : String) (year : Int) : ℚ :=
  (((pay_rates year).getD []).get? (tierIdx mode)).getD 0

/-- The 2022 low/median earner adjustment rule as a standalone predicate over
the current compounded value (lines 130-136). -/
def rule2022 (v : ℚ) : ℚ :=
  if v ≤ 30000 then 2.0 else if v ≤ 50000 then 1.0 else 0.0

/-- The 2023 flat cost-of-living adjustment rule (lines 138-141). -/
def rule2023 (_ : ℚ) : ℚ := 2.0

/-- The 2024 variance adjustment rule over the current compounded value
(lines 143-149). -/
def rule2024 (v : ℚ) : ℚ :=
  if v < 37000 then 1.0 else if v > 50000 then -1.0 else 0.0

/-- Modelled from the spec's wording for the all-adjustments-off reference:
the tier's base rates for 2021-2025, read straight off the published table. -/
def specTierBaseRates (mode : String) : List ℚ :=
  if mode = "outstanding" then [3.25, 3.25, 3.70, 3.70, 3.70]
  else if mode = "verystrong" then [2.75, 2.75, 2.70, 2.70, 2.70]
  else [2.30, 2.30, 2.30, 2.30, 2.30]

/-- Modelled from the spec's wording: pure base-rate compounding of the
starting value, one multiplicative step per period after the base. -/
def pureBaseCompounding (start_salary : ℚ) (rates : List ℚ) : List ℚ :=
  List.scanl (fun v r => v * (1 + r / 100)) start_salary rates

/-- The full set of series the script computes for the rendering surface
(lines 165-171 and 250-252). -/
structure ScriptOutputs where
  sal_successful : List ℚ × List ℚ
  sal_verystrong : List ℚ × List ℚ
  sal_outstanding : List ℚ × List ℚ
  inf_cpih : List ℚ × List ℚ
  inf_cpi : List ℚ × List ℚ
  inf_rpi : List ℚ × List ℚ
  real_successful : List ℚ
  real_verystrong : List ℚ
  real_outstanding : List ℚ

/-- The `ref_traj` selection by the erosion-index radio button
(lines 245-247). -/
def refTrajectory (erosion_index : String) (cpih cpi rpi : List ℚ) : List ℚ :=
  if erosion_index = "CPIH" then cpih
  else if erosion_index = "CPI" then cpi
  else rpi

/-- One recomputation of the script's series (lines 165-171, 245-252):
six trajectories, then the three real-terms erosion series computed against
the reference index chosen by `erosion_index`. -/
def scriptRun (start_salary : ℚ) (a22 a23 a24 : Bool) (erosion_index : String) :
    Option ScriptOutputs :=
  match calculate_trajectory "successful" start_salary a22 a23 a24,
        calculate_trajectory "verystrong" start_salary a22 a23 a24,
        calculate_trajectory "outstanding" start_salary a22 a23 a24,
        calculate_trajectory "cpih" start_salary a22 a23 a24,
        calculate_trajectory "cpi" start_salary a22 a23 a24,
        calculate_trajectory "rpi" start_salary a22 a23 a24 with
  | some s1, some s2, some s3, some i1, some i2, some i3 =>
    let ref_traj := refTrajectory erosion_index i1.1 i2.1 i3.1
    some {
      sal_successful := s1
      sal_verystrong := s2
      sal_outstanding := s3
      inf_cpih := i1
      inf_cpi := i2
      inf_rpi := i3
      real_successful := calculate_real_term_change start_salary s1.1 ref_traj
      real_verystrong := calculate_real_term_change start_salary s2.1 ref_traj
      real_outstanding := calculate_real_term_change start_salary s3.1 ref_traj }
  | _, _, _, _, _, _ => none

/-- Every year the loop visits is a key of every table. -/
theorem pctChange_isSome (mode : String) (a22 a23 a24 : Bool) (year : Int)
    (current_val : ℚ) (hy : year ∈ years.drop 1) :
    (pctChange mode a22 a23 a24 year current_val).isSome := by
  simp [years] at hy
  unfold pctChange isSalaryMode tierIdx
  rcases hy with h | h | h | h | h <;> subst h <;>
    split_ifs <;> simp_all [pay_rates, inflation_data]

/-- The loop never fails on a list of in-table years. -/
theorem trajLoop_isSome (mode : String) (a22 a23 a24 : Bool) :
    ∀ (l : List Int), (∀ y ∈ l, y ∈ years.drop 1) → ∀ cv : ℚ,
      (trajLoop mode a22 a23 a24 l cv).isSome := by
  intro l
  induction l with
  | nil => intro _ cv; simp [trajLoop]
  | cons year rest ih =>
    intro hmem cv
    have h1 := pctChange_isSome mode a22 a23 a24 year cv
      (hmem year (by simp))
    rcases Option.isSome_iff_exists.mp h1 with ⟨p, hp⟩
    have h2 := ih (fun y hy => hmem y (by simp [hy])) (stepVal cv p)
    rcases Option.isSome_iff_exists.mp h2 with ⟨⟨vs, ms⟩, hr⟩
    simp [trajLoop, hp, hr]

/-- Structure of a successful loop run: lengths, and at every index the rate
is the `pctChange` of the value threaded in just before that step, and the
value is the step applied to it. -/
theorem trajLoop_eq (mode : String) (a22 a23 a24 : Bool) :
    ∀ (l : List Int) (cv : ℚ) (vs ms : List ℚ),
      trajLoop mode a22 a23 a24 l cv = some (vs, ms) →
      vs.length = l.length ∧ ms.length = l.length ∧
      ∀ i < l.length,
        pctChange mode a22 a23 a24 (l.getD i 0) ((cv :: vs).getD i 0)
            = some (ms.getD i 0) ∧
        vs.getD i 0 = stepVal ((cv :: vs).getD i 0) (ms.getD i 0) := by
  intro l
  induction l with
  | nil =>
    intro cv vs ms h
    simp [trajLoop] at h
    obtain ⟨h1, h2⟩ := h
    subst h1; subst h2
    simp
  | cons year rest ih =>
    intro cv vs ms h
    unfold trajLoop at h
    cases hp : pctChange mode a22 a23 a24 year cv with
    | none => rw [hp] at h; simp at h
    | some p =>
      rw [hp] at h
      dsimp only at h
      cases hr : trajLoop mode a22 a23 a24 rest (stepVal cv p) with
      | none => simp [hr] at h
      | some r =>
        obtain ⟨vs', ms'⟩ := r
        rw [hr] at h
        simp at h
        obtain ⟨h1, h2⟩ := h
        subst h1; subst h2
        obtain ⟨hl1, hl2, hstep⟩ := ih (stepVal cv p) vs' ms' hr
        refine ⟨by simp [hl1], by simp [hl2], ?_⟩
        intro i hi
        cases i with
        | zero => simpa using hp
        | succ j =>
          have hj : j < rest.length := by simpa using hi
          simpa using hstep j hj

/-- All published inflation rates are non-negative. -/
theorem inflation_data_nonneg (index : String) (year : Int) (p : ℚ)
    (h : inflation_data index year = some p) : 0 ≤ p := by
  unfold inflation_data at h
  split_ifs at h <;>
    first
      | exact Option.noConfusion h
      | (obtain rfl := Option.some.inj h; norm_num)

/-- The adjustment delta is never below -1. -/
theorem adjustment_ge (a22 a23 a24 : Bool) (year : Int) (cv : ℚ) :
    (-1 : ℚ) ≤ adjustment a22 a23 a24 year cv := by
  unfold adjustment
  split_ifs <;> norm_num

/-- Every tier base rate in the table is at least 2.30. -/
theorem pay_rates_ge (year : Int) (rates : List ℚ)
    (h : pay_rates year = some rates) :
    ∀ r ∈ rates, (23 / 10 : ℚ) ≤ r := by
  unfold pay_rates at h
  split_ifs at h <;> simp only [Option.some.injEq] at h <;>
    (subst h; intro r hr; fin_cases hr <;> norm_num)

/-- Every effective rate the engine can produce is non-negative: salary rates
are at least 2.30 - 1, index rates are published positives, and an
unrecognised mode contributes 0. -/
theorem pctChange_nonneg (mode : String) (a22 a23 a24 : Bool) (year : Int)
    (cv p : ℚ) (h : pctChange mode a22 a23 a24 year cv = some p) :
    0 ≤ p := by
  unfold pctChange at h
  split_ifs at h
  · cases hy : pay_rates year with
    | none => rw [hy] at h; simp at h
    | some rates =>
      rw [hy] at h
      dsimp only at h
      cases hg : rates.get? (tierIdx mode) with
      | none => rw [hg] at h; simp at h
      | some base =>
        rw [hg] at h
        simp only [Option.some.injEq] at h
        subst h
        have hb : (23 / 10 : ℚ) ≤ base :=
          pay_rates_ge year rates hy base (List.get?_mem hg)
        have ha := adjustment_ge a22 a23 a24 year cv
        linarith
  · exact inflation_data_nonneg "CPIH" year p h
  · exact inflation_data_nonneg "CPI" year p h
  · exact inflation_data_nonneg "RPI" year p h
  · simp only [Option.some.injEq] at h
    subst h; norm_num

/-- From a positive value, every value the loop appends stays positive. -/
theorem trajLoop_pos (mode : String) (a22 a23 a24 : Bool) :
    ∀ (l : List Int) (cv : ℚ) (vs ms : List ℚ), 0 < cv →
      trajLoop mode a22 a23 a24 l cv = some (vs, ms) →
      ∀ v ∈ vs, 0 < v := by
  intro l
  induction l with
  | nil => intro cv vs ms _ h; simp [trajLoop] at h; simp [h.1]
  | cons year rest ih =>
    intro cv vs ms hcv h
    unfold trajLoop at h
    cases hp : pctChange mode a22 a23 a24 year cv with
    | none => rw [hp] at h; simp at h
    | some p =>
      rw [hp] at h
      dsimp only at h
      cases hr : trajLoop mode a22 a23 a24 rest (stepVal cv p) with
      | none => simp [hr] at h
      | some r =>
        obtain ⟨vs', ms'⟩ := r
        rw [hr] at h
        simp only [Option.some.injEq, Prod.mk.injEq] at h
        obtain ⟨h1, _⟩ := h
        subst h1
        have hpn := pctChange_nonneg mode a22 a23 a24 year cv p hp
        have hstep : 0 < stepVal cv p := by
          unfold stepVal
          have : (0 : ℚ) < 1 + p / 100 := by linarith
          positivity
        intro v hv
        rcases List.mem_cons.mp hv with hv | hv
        · subst hv; exact hstep
        · exact ih (stepVal cv p) vs' ms' hstep hr v hv

/-- `calculate_trajectory` always succeeds and returns the loop's lists with
the base entries consed on. -/
theorem calculate_trajectory_eq (mode : String) (s : ℚ) (a22 a23 a24 : Bool) :
    ∃ vs' ms', trajLoop mode a22 a23 a24 (years.drop 1) s = some (vs', ms') ∧
      calculate_trajectory mode s a22 a23 a24 = some (s :: vs', 0.0 :: ms') := by
  have hsome := trajLoop_isSome mode a22 a23 a24 (years.drop 1)
    (fun y hy => hy) s
  rcases Option.isSome_iff_exists.mp hsome with ⟨⟨vs', ms'⟩, hr⟩
  refine ⟨vs', ms', hr, ?_⟩
  unfold calculate_trajectory
  rw [hr]

/-- A trajectory from a positive start has 6 entries, all positive. -/
theorem calculate_trajectory_values_pos (mode : String) (s : ℚ)
    (a22 a23 a24 : Bool) (vs ms : List ℚ) (hs : 0 < s)
    (h : calculate_trajectory mode s a22 a23 a24 = some (vs, ms)) :
    vs.length = years.length ∧ ∀ v ∈ vs, 0 < v := by
  obtain ⟨vs', ms', hr, hcalc⟩ := calculate_trajectory_eq mode s a22 a23 a24
  rw [h] at hcalc
  obtain ⟨hv, hm⟩ := Prod.mk.injEq .. ▸ Option.some.inj hcalc
  subst hv; subst hm
  obtain ⟨hl1, _, _⟩ :=
    trajLoop_eq mode a22 a23 a24 (years.drop 1) s vs' ms' hr
  constructor
  · simp [hl1, years]
  · intro v hv
    rcases List.mem_cons.mp hv with hv | hv
    · subst hv; exact hs
    · exact trajLoop_pos mode a22 a23 a24 (years.drop 1) s vs' ms' hs hr v hv

/-- The 2022 block of `adjustment` is the 2022 rule gated by its toggle. -/
theorem adjustment_2022 (a22 a23 a24 : Bool) (v : ℚ) :
    adjustment a22 a23 a24 2022 v = if a22 = true then rule2022 v else 0 := by
  unfold adjustment rule2022
  norm_num

/-- The 2023 block of `adjustment` is the 2023 rule gated by its toggle. -/
theorem adjustment_2023 (a22 a23 a24 : Bool) (v : ℚ) :
    adjustment a22 a23 a24 2023 v = if a23 = true then rule2023 v else 0 := by
  unfold adjustment rule2023
  norm_num

/-- The 2024 block of `adjustment` is the 2024 rule gated by its toggle. -/
theorem adjustment_2024 (a22 a23 a24 : Bool) (v : ℚ) :
    adjustment a22 a23 a24 2024 v = if a24 = true then rule2024 v else 0 := by
  unfold adjustment rule2024
  norm_num

/-- The tier index is always in range of the three-entry rate lists. -/
theorem tierIdx_lt (mode : String) : tierIdx mode < 3 := by
  unfold tierIdx
  split_ifs <;> norm_num

/-- For a salary mode, `pctChange` is the table base rate plus the
adjustment of the current value. -/
theorem pctChange_salary (mode : String) (hmode : isSalaryMode mode = true)
    (a22 a23 a24 : Bool) (year : Int) (v : ℚ) (rates : List ℚ)
    (hy : pay_rates year = some rates) (htier : tierIdx mode < rates.length) :
    pctChange mode a22 a23 a24 year v
      = some (baseRate mode year + adjustment a22 a23 a24 year v) := by
  unfold pctChange baseRate
  rw [hy]
  simp only [hmode, if_true, Option.getD_some]
  rw [List.get?_eq_get htier]
  simp

theorem isSalaryMode_successful : isSalaryMode "successful" = true := rfl

theorem tierIdx_successful : tierIdx "successful" = 2 := rfl

theorem pctChange_cpih (a22 a23 a24 : Bool) (year : Int) (v : ℚ) :
    pctChange "cpih" a22 a23 a24 year v = inflation_data "CPIH" year := rfl

theorem inflation_data_cpih (year : Int) :
    inflation_data "CPIH" year
      = (if year = 2021 then some 1.0
         else if year = 2022 then some 6.2
         else if year = 2023 then some 8.9
         else if year = 2024 then some 3.8
         else if year = 2025 then some 3.4
         else none) := rfl

/-- Concrete run: Successful tier, start 40000, all adjustments off. -/
theorem eval_successful_noadj :
    calculate_trajectory "successful" 40000 false false false
      = some ([40000, 40920, 1046529 / 25, 1070599167 / 25000,
          1095222947841 / 25000000, 1120413075641343 / 25000000000],
        [0, 23 / 10, 23 / 10, 23 / 10, 23 / 10, 23 / 10]) := by
  norm_num [calculate_trajectory, trajLoop, pctChange, adjustment, stepVal,
    years, pay_rates, isSalaryMode_successful, tierIdx_successful,
    -List.get?_eq_getElem?]

/-- Concrete run: Successful tier, start 40000, all adjustments on. -/
theorem eval_successful_adj :
    calculate_trajectory "successful" 40000 true true true
      = some ([40000, 40920, 1056759 / 25, 1102199637 / 25000,
          1127550228651 / 25000000, 1153483883909973 / 25000000000],
        [0, 23 / 10, 33 / 10, 43 / 10, 23 / 10, 23 / 10]) := by
  norm_num [calculate_trajectory, trajLoop, pctChange, adjustment, stepVal,
    years, pay_rates, isSalaryMode_successful, tierIdx_successful,
    -List.get?_eq_getElem?]

/-- Concrete run: Successful tier, start 60000, only the 2024 adjustment on:
the running value is above 50000 in 2024, so the -1 delta applies. -/
theorem eval_successful_60000 :
    calculate_trajectory "successful" 60000 false false true
      = some ([60000, 61380, 3139587 / 50, 3211797501 / 50000,
          3253550868513 / 50000000, 3328382538488799 / 50000000000],
        [0, 23 / 10, 23 / 10, 23 / 10, 13 / 10, 23 / 10]) := by
  norm_num [calculate_trajectory, trajLoop, pctChange, adjustment, stepVal,
    years, pay_rates, isSalaryMode_successful, tierIdx_successful,
    -List.get?_eq_getElem?]

/-- Concrete run: CPIH reference trajectory from 40000. -/
theorem eval_cpih :
    calculate_trajectory "cpih" 40000 true true true
      = some ([40000, 40400, 214524 / 5, 58404159 / 1250,
          30311758521 / 625000, 15671179155357 / 312500000],
        [0, 1, 31 / 5, 89 / 10, 19 / 5, 17 / 5]) := by
  norm_num [calculate_trajectory, trajLoop, pctChange_cpih,
    inflation_data_cpih, stepVal, years]

/-- Claim C1: for every mode and positive start value, the engine returns a
values list and a rates list of the length of `years`, with head exactly the
start value, and each later value is the previous one times
`1 + rate / 100`. -/
theorem c1_trajectory_shape_and_chain (mode : String) (s : ℚ)
    (a22 a23 a24 : Bool) (_hs : 0 < s) :
    ∃ vs ms, calculate_trajectory mode s a22 a23 a24 = some (vs, ms) ∧
      vs.length = years.length ∧ ms.length = years.length ∧
      vs.getD 0 0 = s ∧
      ∀ i, 0 < i → i < years.length →
        vs.getD i 0 = vs.getD (i - 1) 0 * (1 + ms.getD i 0 / 100) := by
  obtain ⟨vs', ms', hr, hcalc⟩ := calculate_trajectory_eq mode s a22 a23 a24
  obtain ⟨hl1, hl2, hstep⟩ :=
    trajLoop_eq mode a22 a23 a24 (years.drop 1) s vs' ms' hr
  refine ⟨s :: vs', 0.0 :: ms', hcalc, ?_, ?_, rfl, ?_⟩
  · simp [hl1, years]
  · simp [hl2, years]
  · intro i h0 h6
    obtain ⟨j, rfl⟩ : ∃ j, i = j + 1 := ⟨i - 1, (Nat.succ_pred_eq_of_pos h0).symm⟩
    have hj : j < (years.drop 1).length := by
      simp [years] at h6 ⊢
      omega
    have := (hstep j hj).2
    simp only [List.getD_cons_succ, Nat.add_sub_cancel]
    rw [this]
    rfl

/-- Witness for C1 at mode Successful, start 40000, adjustments off. -/
theorem c1_trajectory_shape_and_chain_witness :
    0 < (40000 : ℚ) ∧
    ∃ vs ms, calculate_trajectory "successful" 40000 false false false
        = some (vs, ms) ∧
      vs.length = years.length ∧ ms.length = years.length ∧
      vs.getD 0 0 = 40000 ∧
      ∀ i, 0 < i → i < years.length →
        vs.getD i 0 = vs.getD (i - 1) 0 * (1 + ms.getD i 0 / 100) :=
  ⟨by norm_num,
   c1_trajectory_shape_and_chain "successful" 40000 false false false
     (by norm_num)⟩

/-- Claim C2, counterexample: the claim asks that an index-mode trajectory's
effective rate at the base period equal the table's published rate for that
base period; but the CPIH table has no entry at all for the base period 2020,
so no such published rate exists (the rate recorded there is 0). -/
theorem c2_counterexample :
    ¬ ∃ r : ℚ, inflation_data "CPIH" (years.getD 0 0) = some r ∧
        ((calculate_trajectory "cpih" 40000 true true true).getD
            ([], [])).2.getD 0 0 = r := by
  rintro ⟨r, hr, _⟩
  have hnone : inflation_data "CPIH" (years.getD 0 0) = none := rfl
  rw [hnone] at hr
  exact Option.noConfusion hr

/-- Claim C2, amended: for every mode - salary and index alike - the
effective rate recorded at the base period is 0, and the inflation tables
publish no rate for the base period 2020; the salary/index asymmetry the
claim describes is not present in this configuration. -/
theorem c2_base_period_rate (mode : String) (s : ℚ) (a22 a23 a24 : Bool)
    (vs ms : List ℚ)
    (h : calculate_trajectory mode s a22 a23 a24 = some (vs, ms)) :
    ms.getD 0 0 = 0 ∧ inflation_data "CPIH" 2020 = none ∧
      inflation_data "CPI" 2020 = none ∧ inflation_data "RPI" 2020 = none := by
  obtain ⟨vs', ms', _, hcalc⟩ := calculate_trajectory_eq mode s a22 a23 a24
  rw [h] at hcalc
  obtain ⟨_, hm⟩ := Prod.mk.injEq .. ▸ Option.some.inj hcalc
  subst hm
  exact ⟨by norm_num, rfl, rfl, rfl⟩

/-- Witness for the amended C2 at the CPIH run from 40000. -/
theorem c2_base_period_rate_witness :
    ([0, 1, 31 / 5, 89 / 10, 19 / 5, 17 / 5] : List ℚ).getD 0 0 = 0 ∧
      inflation_data "CPIH" 2020 = none ∧
      inflation_data "CPI" 2020 = none ∧
      inflation_data "RPI" 2020 = none :=
  c2_base_period_rate "cpih" 40000 true true true
    [40000, 40400, 214524 / 5, 58404159 / 1250,
      30311758521 / 625000, 15671179155357 / 312500000]
    [0, 1, 31 / 5, 89 / 10, 19 / 5, 17 / 5] eval_cpih

/-- Claim C3: in a salary-mode trajectory, each toggled adjustment rule at
its matching period (2022, 2023, 2024 - indices 2, 3, 4) is evaluated at the
running compounded value just before that period's raise - `vs.getD (i-1)`,
the pre-update value - not at the start value. -/
theorem c3_rules_use_pre_update_value (mode : String)
    (hmode : isSalaryMode mode = true) (s : ℚ) (a22 a23 a24 : Bool)
    (vs ms : List ℚ)
    (h : calculate_trajectory mode s a22 a23 a24 = some (vs, ms)) :
    ms.getD 2 0 = baseRate mode 2022
        + (if a22 = true then rule2022 (vs.getD 1 0) else 0) ∧
    ms.getD 3 0 = baseRate mode 2023
        + (if a23 = true then rule2023 (vs.getD 2 0) else 0) ∧
    ms.getD 4 0 = baseRate mode 2024
        + (if a24 = true then rule2024 (vs.getD 3 0) else 0) := by
  obtain ⟨vs', ms', hr, hcalc⟩ := calculate_trajectory_eq mode s a22 a23 a24
  rw [h] at hcalc
  obtain ⟨hv, hm⟩ := Prod.mk.injEq .. ▸ Option.some.inj hcalc
  subst hv; subst hm
  obtain ⟨hl1, hl2, hstep⟩ :=
    trajLoop_eq mode a22 a23 a24 (years.drop 1) s vs' ms' hr
  have hy1 : (years.drop 1).getD 1 0 = 2022 := rfl
  have hy2 : (years.drop 1).getD 2 0 = 2023 := rfl
  have hy3 : (years.drop 1).getD 3 0 = 2024 := rfl
  have hlen : (years.drop 1).length = 5 := rfl
  have h1 := (hstep 1 (by rw [hlen]; omega)).1
  have h2 := (hstep 2 (by rw [hlen]; omega)).1
  have h3 := (hstep 3 (by rw [hlen]; omega)).1
  rw [hy1, pctChange_salary mode hmode a22 a23 a24 2022 _ [3.25, 2.75, 2.30] rfl
    (by simpa using tierIdx_lt mode)] at h1
  rw [hy2, pctChange_salary mode hmode a22 a23 a24 2023 _ [3.70, 2.70, 2.30] rfl
    (by simpa using tierIdx_lt mode)] at h2
  rw [hy3, pctChange_salary mode hmode a22 a23 a24 2024 _ [3.70, 2.70, 2.30] rfl
    (by simpa using tierIdx_lt mode)] at h3
  have e1 := Option.some.inj h1
  have e2 := Option.some.inj h2
  have e3 := Option.some.inj h3
  refine ⟨?_, ?_, ?_⟩
  · rw [show ((0.0 : ℚ) :: ms').getD 2 0 = ms'.getD 1 0 from rfl, ← e1,
      adjustment_2022]
  · rw [show ((0.0 : ℚ) :: ms').getD 3 0 = ms'.getD 2 0 from rfl, ← e2,
      adjustment_2023]
  · rw [show ((0.0 : ℚ) :: ms').getD 4 0 = ms'.getD 3 0 from rfl, ← e3,
      adjustment_2024]

/-- Witness for C3 at Successful, start 40000, all adjustments on:
the 2022 rule sees the compounded 40920, not 40000. -/
theorem c3_rules_use_pre_update_value_witness :
    isSalaryMode "successful" = true ∧
    (([0, 23 / 10, 33 / 10, 43 / 10, 23 / 10, 23 / 10] : List ℚ).getD 2 0
        = baseRate "successful" 2022
          + (if true = true then
              rule2022 (([40000, 40920, 1056759 / 25, 1102199637 / 25000,
                  1127550228651 / 25000000,
                  1153483883909973 / 25000000000] : List ℚ).getD 1 0)
            else 0) ∧
     ([0, 23 / 10, 33 / 10, 43 / 10, 23 / 10, 23 / 10] : List ℚ).getD 3 0
        = baseRate "successful" 2023
          + (if true = true then
              rule2023 (([40000, 40920, 1056759 / 25, 1102199637 / 25000,
                  1127550228651 / 25000000,
                  1153483883909973 / 25000000000] : List ℚ).getD 2 0)
            else 0) ∧
     ([0, 23 / 10, 33 / 10, 43 / 10, 23 / 10, 23 / 10] : List ℚ).getD 4 0
        = baseRate "successful" 2024
          + (if true = true then
              rule2024 (([40000, 40920, 1056759 / 25, 1102199637 / 25000,
                  1127550228651 / 25000000,
                  1153483883909973 / 25000000000] : List ℚ).getD 3 0)
            else 0)) :=
  ⟨rfl,
   c3_rules_use_pre_update_value "successful" rfl 40000 true true true
     [40000, 40920, 1056759 / 25, 1102199637 / 25000,
       1127550228651 / 25000000, 1153483883909973 / 25000000000]
     [0, 23 / 10, 33 / 10, 43 / 10, 23 / 10, 23 / 10] eval_successful_adj⟩

/-- Claim C4: with every adjustment toggle off, a salary trajectory's values
are exactly pure base-rate compounding of the start value by the tier's
published rates. -/
theorem c4_pure_base_compounding (mode : String)
    (hmode : isSalaryMode mode = true) (s : ℚ) :
    (calculate_trajectory mode s false false false).map Prod.fst
      = some (pureBaseCompounding s (specTierBaseRates mode)) := by
  have hmode' : (mode = "successful" ∨ mode = "verystrong")
      ∨ mode = "outstanding" := by
    simpa [isSalaryMode] using hmode
  rcases hmode' with (h | h) | h <;> subst h <;>
    simp [calculate_trajectory, trajLoop, pctChange, years, pay_rates,
      adjustment, stepVal, isSalaryMode, tierIdx, pureBaseCompounding,
      specTierBaseRates, List.scanl] <;> norm_num

/-- Witness for C4 at mode Successful, start 40000. -/
theorem c4_pure_base_compounding_witness :
    isSalaryMode "successful" = true ∧
    (calculate_trajectory "successful" 40000 false false false).map Prod.fst
      = some (pureBaseCompounding 40000 (specTierBaseRates "successful")) :=
  ⟨rfl, c4_pure_base_compounding "successful" rfl 40000⟩

/-- Claim C5: the real-terms erosion of any engine trajectory measured
against itself as the reference index is exactly 0 at every period. -/
theorem c5_self_erosion_zero (mode : String) (s : ℚ) (a22 a23 a24 : Bool)
    (vs ms : List ℚ) (hs : 0 < s)
    (h : calculate_trajectory mode s a22 a23 a24 = some (vs, ms)) :
    calculate_real_term_change s vs vs = List.replicate years.length 0 := by
  obtain ⟨hlen, hpos⟩ :=
    calculate_trajectory_values_pos mode s a22 a23 a24 vs ms hs h
  unfold calculate_real_term_change
  rw [List.eq_replicate_iff]
  refine ⟨by simp, ?_⟩
  intro b hb
  rw [List.mem_map] at hb
  obtain ⟨i, hi, hfb⟩ := hb
  rw [List.mem_range] at hi
  have hiv : i < vs.length := by rw [hlen]; exact hi
  have hmem : vs.getD i 0 ∈ vs := by
    rw [List.getD_eq_getElem vs 0 hiv]
    exact List.getElem_mem hiv
  have hv0 : vs.getD i 0 ≠ 0 := ne_of_gt (hpos _ hmem)
  rw [← hfb]
  show ((vs.getD i 0 / (vs.getD i 0 / s) - s) / s) * 100 = 0
  rw [div_div_eq_mul_div, mul_div_cancel_left₀ s hv0]
  simp

/-- Witness for C5 at the Successful run from 40000, adjustments off. -/
theorem c5_self_erosion_zero_witness :
    0 < (40000 : ℚ) ∧
    calculate_real_term_change 40000
        [40000, 40920, 1046529 / 25, 1070599167 / 25000,
          1095222947841 / 25000000, 1120413075641343 / 25000000000]
        [40000, 40920, 1046529 / 25, 1070599167 / 25000,
          1095222947841 / 25000000, 1120413075641343 / 25000000000]
      = List.replicate years.length 0 :=
  ⟨by norm_num,
   c5_self_erosion_zero "successful" 40000 false false false
     [40000, 40920, 1046529 / 25, 1070599167 / 25000,
       1095222947841 / 25000000, 1120413075641343 / 25000000000]
     [0, 23 / 10, 23 / 10, 23 / 10, 23 / 10, 23 / 10]
     (by norm_num) eval_successful_noadj⟩

/-- Claim C6: two script runs that differ only in the selected reference
erosion index produce identical salary trajectories (values and effective
rates); only the erosion series can differ. -/
theorem c6_reference_index_noninterference (s : ℚ) (a22 a23 a24 : Bool)
    (idx1 idx2 : String) :
    (scriptRun s a22 a23 a24 idx1).map
        (fun o => (o.sal_successful, o.sal_verystrong, o.sal_outstanding))
      = (scriptRun s a22 a23 a24 idx2).map
        (fun o => (o.sal_successful, o.sal_verystrong, o.sal_outstanding)) := by
  cases e1 : calculate_trajectory "successful" s a22 a23 a24 <;>
  cases e2 : calculate_trajectory "verystrong" s a22 a23 a24 <;>
  cases e3 : calculate_trajectory "outstanding" s a22 a23 a24 <;>
  cases e4 : calculate_trajectory "cpih" s a22 a23 a24 <;>
  cases e5 : calculate_trajectory "cpi" s a22 a23 a24 <;>
  cases e6 : calculate_trajectory "rpi" s a22 a23 a24 <;>
    simp [scriptRun, e1, e2, e3, e4, e5, e6]

/-- Claim C7, counterexample: reading "approximately" at the precision the
claim's figures are stated (one decimal place, tolerance 0.05), the fourth
value fails: the engine produces 42823.96668, not 42823.4 (off by 0.567). -/
theorem c7_counterexample :
    ¬ ∀ i < 4,
        |((calculate_trajectory "successful" 40000 false false false).getD
              ([], [])).1.getD i 0
            - ([40000, 40920.0, 41861.2, 42823.4] : List ℚ).getD i 0|
          ≤ 1 / 20 := by
  intro hall
  have h3 := hall 3 (by norm_num)
  rw [eval_successful_noadj] at h3
  rw [abs_le] at h3
  norm_num at h3

/-- Claim C7, amended: with start 40000, Successful base rates
[0, 2.3, 2.3, 2.3] and no adjustments, the first four values are exactly
40000, 40920, 41861.16, 42823.96668 - approximately
[40000, 40920.0, 41861.2, 42824.0] (the claim's fourth figure 42823.4 is off
by 0.567). -/
theorem c7_scenario_values :
    ∃ vs ms,
      calculate_trajectory "successful" 40000 false false false
          = some (vs, ms) ∧
      vs.take 4 = [40000, 40920, 1046529 / 25, 1070599167 / 25000] ∧
      ∀ i < 4,
        |vs.getD i 0 - ([40000, 40920.0, 41861.2, 42824.0] : List ℚ).getD i 0|
          ≤ 1 / 20 := by
  refine ⟨_, _, eval_successful_noadj, by norm_num, ?_⟩
  intro i hi
  interval_cases i <;> rw [abs_le] <;> constructor <;> norm_num

/-- Claim C8: from a positive start, if every recorded effective rate is
non-negative then no trajectory value is negative; and the engine does not
clamp negative rates - a single step with a negative rate strictly decreases
a positive value, and the 2024 rule's -1 delta passes through unclamped
(start 60000: effective rate 2.30 + (-1), below the base rate) with the
computation still succeeding. -/
theorem c8_nonneg_values_no_clamping :
    (∀ (mode : String) (s : ℚ) (a22 a23 a24 : Bool) (vs ms : List ℚ),
        0 < s → calculate_trajectory mode s a22 a23 a24 = some (vs, ms) →
        (∀ r ∈ ms, 0 ≤ r) → ∀ v ∈ vs, 0 ≤ v) ∧
    (∀ cv p : ℚ, 0 < cv → p < 0 → stepVal cv p < cv) ∧
    (∃ vs ms,
      calculate_trajectory "successful" 60000 false false true
          = some (vs, ms) ∧
      ms.getD 4 0 = 2.30 + (-1 : ℚ) ∧
      ms.getD 4 0 < baseRate "successful" 2024) := by
  refine ⟨?_, ?_, ?_⟩
  · intro mode s a22 a23 a24 vs ms hs h _
    intro v hv
    exact le_of_lt
      ((calculate_trajectory_values_pos mode s a22 a23 a24 vs ms hs h).2 v hv)
  · intro cv p hcv hp
    unfold stepVal
    have h1 : (1 : ℚ) + p / 100 < 1 := by linarith
    calc cv * (1 + p / 100) < cv * 1 := by
          exact mul_lt_mul_of_pos_left h1 hcv
      _ = cv := mul_one cv
  · refine ⟨_, _, eval_successful_60000, by norm_num, ?_⟩
    norm_num [baseRate, pay_rates, tierIdx_successful, -List.get?_eq_getElem?]

/-- Witness for C8: the non-negativity part at the Successful 40000 run, and
the declining-step part at value 100 with rate -2. -/
theorem c8_nonneg_values_no_clamping_witness :
    (0 < (40000 : ℚ) ∧
      ∀ v ∈ ([40000, 40920, 1046529 / 25, 1070599167 / 25000,
          1095222947841 / 25000000,
          1120413075641343 / 25000000000] : List ℚ), 0 ≤ v) ∧
    (0 < (100 : ℚ) ∧ (-2 : ℚ) < 0 ∧ stepVal 100 (-2) < 100) :=
  ⟨⟨by norm_num,
    c8_nonneg_values_no_clamping.1 "successful" 40000 false false false
      [40000, 40920, 1046529 / 25, 1070599167 / 25000,
        1095222947841 / 25000000, 1120413075641343 / 25000000000]
      [0, 23 / 10, 23 / 10, 23 / 10, 23 / 10, 23 / 10]
      (by norm_num) eval_successful_noadj (by norm_num)⟩,
   ⟨by norm_num, by norm_num,
    c8_nonneg_values_no_clamping.2.1 100 (-2) (by norm_num) (by norm_num)⟩⟩

/-- Claim C9: every effective rate an index run records is strictly above
-100, every value of a reference trajectory built from a positive start is
strictly positive, and dividing by `R[i] / startValue` is therefore dividing
by a nonzero quantity. -/
theorem c9_reference_trajectory_positive (mode : String)
    (_hmode : mode ∈ (["cpih", "cpi", "rpi"] : List String)) (s : ℚ)
    (a22 a23 a24 : Bool) (vs ms : List ℚ) (hs : 0 < s)
    (h : calculate_trajectory mode s a22 a23 a24 = some (vs, ms)) :
    (∀ (year : Int) (cv p : ℚ),
        pctChange mode a22 a23 a24 year cv = some p → -100 < p) ∧
    ∀ i < years.length, 0 < vs.getD i 0 ∧ vs.getD i 0 / s ≠ 0 := by
  obtain ⟨hlen, hpos⟩ :=
    calculate_trajectory_values_pos mode s a22 a23 a24 vs ms hs h
  refine ⟨?_, ?_⟩
  · intro year cv p hp
    have := pctChange_nonneg mode a22 a23 a24 year cv p hp
    linarith
  · intro i hi
    have hiv : i < vs.length := by rw [hlen]; exact hi
    have hmem : vs.getD i 0 ∈ vs := by
      rw [List.getD_eq_getElem vs 0 hiv]
      exact List.getElem_mem hiv
    have hv := hpos _ hmem
    exact ⟨hv, div_ne_zero (ne_of_gt hv) (ne_of_gt hs)⟩

/-- Witness for C9 at the CPIH run from 40000. -/
theorem c9_reference_trajectory_positive_witness :
    "cpih" ∈ (["cpih", "cpi", "rpi"] : List String) ∧ 0 < (40000 : ℚ) ∧
    ((∀ (year : Int) (cv p : ℚ),
        pctChange "cpih" true true true year cv = some p → -100 < p) ∧
     ∀ i < years.length,
        0 < ([40000, 40400, 214524 / 5, 58404159 / 1250,
            30311758521 / 625000, 15671179155357 / 312500000] : List ℚ).getD i 0 ∧
        ([40000, 40400, 214524 / 5, 58404159 / 1250,
            30311758521 / 625000,
            15671179155357 / 312500000] : List ℚ).getD i 0 / 40000 ≠ 0) :=
  ⟨by decide, by norm_num,
   c9_reference_trajectory_positive "cpih" (by decide) 40000 true true true
     [40000, 40400, 214524 / 5, 58404159 / 1250,
       30311758521 / 625000, 15671179155357 / 312500000]
     [0, 1, 31 / 5, 89 / 10, 19 / 5, 17 / 5] (by norm_num) eval_cpih⟩

/-- Claim C10: every year the loop visits (2021-2025) is a key of
`pay_rates` (with three tier entries) and of every `inflation_data`
sub-table, and for every recognised mode `calculate_trajectory` always
returns a result - no lookup can fail. -/
theorem c10_lookups_total :
    (∀ y ∈ years.drop 1,
        (pay_rates y).isSome ∧ ((pay_rates y).getD []).length = 3 ∧
        (inflation_data "CPIH" y).isSome ∧ (inflation_data "CPI" y).isSome ∧
        (inflation_data "RPI" y).isSome) ∧
    ∀ mode ∈ (["successful", "verystrong", "outstanding",
        "cpih", "cpi", "rpi"] : List String),
      ∀ (s : ℚ) (a22 a23 a24 : Bool),
        (calculate_trajectory mode s a22 a23 a24).isSome := by
  constructor
  · decide
  · intro mode _ s a22 a23 a24
    obtain ⟨vs', ms', _, hcalc⟩ := calculate_trajectory_eq mode s a22 a23 a24
    rw [hcalc]
    rfl

/-- Witness for C10 at year 2021 and mode cpih with start 40000. -/
theorem c10_lookups_total_witness :
    ((2021 : Int) ∈ years.drop 1 ∧
      (pay_rates 2021).isSome ∧ ((pay_rates 2021).getD []).length = 3 ∧
      (inflation_data "CPIH" 2021).isSome ∧
      (inflation_data "CPI" 2021).isSome ∧
      (inflation_data "RPI" 2021).isSome) ∧
    ("cpih" ∈ (["successful", "verystrong", "outstanding",
        "cpih", "cpi", "rpi"] : List String) ∧
      (calculate_trajectory "cpih" 40000 true true true).isSome) :=
  ⟨⟨by decide, c10_lookups_total.1 2021 (by decide)⟩,
   ⟨by decide, c10_lookups_total.2 "cpih" (by decide) 40000 true true true⟩⟩

end WageChange
